import Mathlib

/-
  Verification of an OAuth session gateway (src/index.js).

  Shallow embedding: the JWT library (jsonwebtoken) is modelled as an ideal
  MAC: a signature records exactly the payload, the expiration and the secret
  it was produced over, so signature verification succeeds precisely when the
  token carries the same payload and expiration the signature covers and the
  verifying secret equals the signing secret. Times are Nat seconds (Unix
  time), matching the one-second granularity of the iat/exp claims.
  Express handlers become pure functions from an explicit request state
  (cookies, query, provider outcome) to an explicit response record carrying
  the HTTP status, the cookie effects and the JSON body fields the claims
  talk about.
-/

/-- The durable identity payload `{name, email, picture}` built at
src/index.js:120. -/
structure UserProfile where
  name : String
  email : String
  picture : String
  deriving DecidableEq, Repr

/-- A JWT payload as this service signs it: `jwt.sign({ user }, ...)`
(src/index.js:122,147). The `user` field is Option-valued because a token
signed with the correct secret over a payload without a `user` field still
verifies, and `decoded.user` is then undefined (modelled as `none`). -/
structure JwtPayload where
  user : Option UserProfile
  deriving DecidableEq, Repr

/-- Ideal-MAC model of an HMAC signature: the signature is valid exactly for
the payload, expiration and secret it was created over. -/
structure Sig where
  payload : JwtPayload
  exp : Nat
  secret : String
  deriving DecidableEq, Repr

/-- A signed token: the transmitted payload and expiration plus the
signature. Tampering changes `payload` or `exp` without changing `sig`. -/
structure Token where
  payload : JwtPayload
  exp : Nat
  sig : Sig
  deriving DecidableEq, Repr

/-- The two failure modes of `jwt.verify`: JsonWebTokenError (signature
mismatch) and TokenExpiredError. -/
inductive VerifyError where
  | invalidSignature
  | expired
  deriving DecidableEq, Repr

deriving instance DecidableEq for Except

namespace Jwt

/-- `jwt.sign(payload, secret, { expiresIn })` at time `now` (seconds):
the token expires at `now + expiresIn` and the signature covers the payload,
the expiration and the secret. -/
def sign (payload : JwtPayload) (secret : String) (expiresIn : Nat) (now : Nat) : Token :=
  ⟨payload, now + expiresIn, ⟨payload, now + expiresIn, secret⟩⟩

/-- `jwt.verify(token, secret)` at time `now`: the signature is checked
first (JsonWebTokenError on mismatch), then the `exp` claim
(TokenExpiredError when `now ≥ exp`); on success the decoded payload is
returned. -/
def verify (t : Token) (secret : String) (now : Nat) : Except VerifyError JwtPayload :=
  if t.sig = ⟨t.payload, t.exp, secret⟩ then
    if now < t.exp then .ok t.payload else .error .expired
  else
    .error .invalidSignature

end Jwt

/-- `config.tokenExpiration` (src/index.js:19), in seconds. -/
def tokenExpiration : Nat := 36000

/-- The request cookie store the handlers read: `req.cookies.token`
(src/index.js:57,138). `none` means no `token` cookie is present. -/
structure Cookies where
  token : Option Token
  deriving DecidableEq, Repr

/-- Outcome of the `auth` middleware (src/index.js:54-72): either it
terminates the request with an HTTP status, or it stores `decoded.user` in
the request object and calls the wrapped handler. -/
inductive AuthDecision where
  | reject (status : Nat)
  | accept (user : Option UserProfile)
  deriving DecidableEq, Repr

/-- The full observable effect of the middleware: its decision plus any
cookie mutation it performs on the response. -/
structure AuthResult where
  decision : AuthDecision
  setCookie : Option Token
  clearCookie : Bool
  deriving DecidableEq, Repr

/-- The `auth` middleware (src/index.js:54-72): 401 when no cookie, 401 when
`jwt.verify` throws, otherwise `req.user = decoded.user` and `next()`. It
calls neither `res.cookie` nor `res.clearCookie` on any path. -/
def auth (secret : String) (now : Nat) (cookies : Cookies) : AuthResult :=
  match cookies.token with
  | none => ⟨.reject 401, none, false⟩
  | some t =>
    match Jwt.verify t secret now with
    | .error _ => ⟨.reject 401, none, false⟩
    | .ok decoded => ⟨.accept decoded.user, none, false⟩

/-- Response of `GET /auth/logged_in` (src/index.js:135-157). -/
structure LoggedInResult where
  status : Nat
  setCookie : Option Token
  clearCookie : Bool
  loggedIn : Bool
  user : Option UserProfile
  deriving DecidableEq, Repr

/-- The `/auth/logged_in` handler (src/index.js:135-157): no cookie or a
failing `jwt.verify` answers `{loggedIn: false}` with the default 200
status and no cookie mutation; on success it signs a fresh token over
`{ user: decoded.user }` with the full `tokenExpiration` window, overwrites
the cookie and answers `{loggedIn: true, user}`. -/
def logged_in (secret : String) (now : Nat) (cookies : Cookies) : LoggedInResult :=
  match cookies.token with
  | none => ⟨200, none, false, false, none⟩
  | some t =>
    match Jwt.verify t secret now with
    | .error _ => ⟨200, none, false, false, none⟩
    | .ok decoded =>
      ⟨200, some (Jwt.sign ⟨decoded.user⟩ secret tokenExpiration now), false, true, decoded.user⟩

/-- The claims this service reads out of the provider id token:
`const { email, name, picture } = jwt.decode(id_token)` (src/index.js:117). -/
structure IdClaims where
  email : String
  name : String
  picture : String
  deriving DecidableEq, Repr

/-- Outcome of the outbound `axios.post(config.tokenUrl, ...)` exchange
(src/index.js:109): `failure` when the request throws (network error or
non-2xx status), `success d` when it answers 2xx, with `d` the optional
`id_token` of the response body, already decoded to its claims. -/
inductive ExchangeOutcome where
  | failure
  | success (idToken : Option IdClaims)
  deriving DecidableEq, Repr

/-- Response of `GET /auth/token` (src/index.js:96-132). -/
structure TokenEndpointResult where
  status : Nat
  setCookie : Option Token
  user : Option UserProfile
  deriving DecidableEq, Repr

/-- The `/auth/token` handler (src/index.js:96-132): `!code` (absent or
empty query parameter) answers 400; a thrown exchange answers 500; a 2xx
exchange without `id_token` answers 400; otherwise the profile is extracted,
a session token is signed, the cookie is set and `{user}` returned. -/
def auth_token (secret : String) (now : Nat) (code : Option String)
    (provider : ExchangeOutcome) : TokenEndpointResult :=
  match code with
  | none => ⟨400, none, none⟩
  | some c =>
    if c = "" then ⟨400, none, none⟩
    else
      match provider with
      | .failure => ⟨500, none, none⟩
      | .success none => ⟨400, none, none⟩
      | .success (some claims) =>
        let user : UserProfile := ⟨claims.name, claims.email, claims.picture⟩
        ⟨200, some (Jwt.sign ⟨some user⟩ secret tokenExpiration now), some user⟩

/-- Outcome of the downstream `axios.get(config.postUrl)` call
(src/index.js:169), generic in the item type of the returned list. -/
inductive UpstreamOutcome (α : Type) where
  | failure
  | success (data : List α)
  deriving DecidableEq, Repr

/-- Response of `GET /user/posts` (src/index.js:166-175): the status and,
when 200, the list in the `posts` field. -/
structure PostsResult (α : Type) where
  status : Nat
  posts : Option (List α)
  deriving DecidableEq, Repr

/-- The `/user/posts` route: the `auth` middleware runs first and its
rejection terminates the request; on acceptance one downstream GET is made
and the handler answers `{posts: data.slice(0, 5)}`, or 500 if the call
throws (src/index.js:166-175). -/
def user_posts {α : Type} (secret : String) (now : Nat) (cookies : Cookies)
    (upstream : UpstreamOutcome α) : PostsResult α :=
  match (auth secret now cookies).decision with
  | .reject s => ⟨s, none⟩
  | .accept _ =>
    match upstream with
    | .failure => ⟨500, none⟩
    | .success data => ⟨200, some (data.take 5)⟩

/-
  Theorems, one per claim.
-/

/-- Claim C1: issuing a credential for a valid UserProfile P (signing
`{user: P}` with the configured secret and the fixed 36000-second
expiration) and verifying it with the same secret before the expiration
returns P unchanged as the embedded profile. -/
theorem C1_issue_verify_roundtrip (P : UserProfile) (secret : String) (t0 now : Nat)
    (h : now < t0 + tokenExpiration) :
    Jwt.verify (Jwt.sign ⟨some P⟩ secret tokenExpiration t0) secret now =
      .ok ⟨some P⟩ := by
  simp [Jwt.sign, Jwt.verify, h]

/-- Witness for C1 at a concrete profile, issuance time 0 and verification
time 0. -/
theorem C1_witness :
    (0 : Nat) < 0 + tokenExpiration ∧
    Jwt.verify (Jwt.sign ⟨some ⟨"n", "e", "p"⟩⟩ "s" tokenExpiration 0) "s" 0 =
      .ok ⟨some ⟨"n", "e", "p"⟩⟩ :=
  ⟨by decide, C1_issue_verify_roundtrip ⟨"n", "e", "p"⟩ "s" 0 0 (by decide)⟩

/-- Claim C2: verification fails with InvalidSignature exactly when the
token is wrongly signed or altered (its signature does not cover its current
payload, expiration and the verifying secret); on a correctly signed token
it fails with Expired when the current time has reached the expiration and
otherwise returns the embedded payload; it never succeeds on a tampered or
wrongly-signed token. -/
theorem C2_verify_cases (t : Token) (secret : String) (now : Nat) :
    (t.sig ≠ ⟨t.payload, t.exp, secret⟩ →
      Jwt.verify t secret now = .error .invalidSignature) ∧
    (t.sig = ⟨t.payload, t.exp, secret⟩ → t.exp ≤ now →
      Jwt.verify t secret now = .error .expired) ∧
    (t.sig = ⟨t.payload, t.exp, secret⟩ → now < t.exp →
      Jwt.verify t secret now = .ok t.payload) ∧
    (t.sig ≠ ⟨t.payload, t.exp, secret⟩ →
      ∀ p, Jwt.verify t secret now ≠ .ok p) := by
  unfold Jwt.verify
  by_cases hs : t.sig = ⟨t.payload, t.exp, secret⟩
  · by_cases he : now < t.exp <;> simp [hs, he]
  · simp [hs]

/-- Witness for C2: a token signed with secret "other" is rejected as
InvalidSignature when verified with secret "s", and an expired well-signed
token is rejected as Expired. -/
theorem C2_witness :
    Jwt.verify ⟨⟨none⟩, 10, ⟨⟨none⟩, 10, "other"⟩⟩ "s" 0 =
      .error .invalidSignature ∧
    Jwt.verify ⟨⟨none⟩, 10, ⟨⟨none⟩, 10, "s"⟩⟩ "s" 10 = .error .expired :=
  ⟨(C2_verify_cases ⟨⟨none⟩, 10, ⟨⟨none⟩, 10, "other"⟩⟩ "s" 0).1 (by decide),
   (C2_verify_cases ⟨⟨none⟩, 10, ⟨⟨none⟩, 10, "s"⟩⟩ "s" 10).2.1 (by decide) (by decide)⟩

/-- Claim C3: the auth middleware answers 401 exactly when the request has
no session cookie or the cookie's credential fails verification; when
verification succeeds it attaches the embedded profile to the request and
runs the wrapped handler; and it never terminates with any status other
than 401. -/
theorem C3_auth_gate (secret : String) (now : Nat) (cookies : Cookies) :
    ((auth secret now cookies).decision = .reject 401 ∨
      ∃ u, (auth secret now cookies).decision = .accept u) ∧
    ((auth secret now cookies).decision = .reject 401 ↔
      (cookies.token = none ∨
        ∃ t, cookies.token = some t ∧ ∀ p, Jwt.verify t secret now ≠ .ok p)) ∧
    (∀ u, (auth secret now cookies).decision = .accept u ↔
      ∃ t, cookies.token = some t ∧
        ∃ p, Jwt.verify t secret now = .ok p ∧ p.user = u) := by
  unfold auth
  rcases hc : cookies.token with _ | t
  · simp
  · rcases hv : Jwt.verify t secret now with e | p
    · simp [hv]
    · simp [hv]

/-- Witness for C3: a request without a cookie is rejected with 401, and a
request with a freshly issued cookie is accepted with the embedded
profile. -/
theorem C3_witness :
    (auth "s" 0 ⟨none⟩).decision = .reject 401 ∧
    (auth "s" 0 ⟨some (Jwt.sign ⟨some ⟨"n", "e", "p"⟩⟩ "s" tokenExpiration 0)⟩).decision =
      .accept (some ⟨"n", "e", "p"⟩) :=
  ⟨((C3_auth_gate "s" 0 ⟨none⟩).2.1).mpr (Or.inl rfl),
   ((C3_auth_gate "s" 0
      ⟨some (Jwt.sign ⟨some ⟨"n", "e", "p"⟩⟩ "s" tokenExpiration 0)⟩).2.2
      (some ⟨"n", "e", "p"⟩)).mpr
     ⟨Jwt.sign ⟨some ⟨"n", "e", "p"⟩⟩ "s" tokenExpiration 0, rfl,
      ⟨some ⟨"n", "e", "p"⟩⟩, by decide, rfl⟩⟩

/-- Claim C4: the /auth/logged_in endpoint always answers HTTP 200 (never
401 or 500): `{loggedIn: false}` when the cookie is absent or verification
fails for any reason, and `{loggedIn: true, user}` when verification
succeeds. -/
theorem C4_logged_in_always_200 (secret : String) (now : Nat) (cookies : Cookies) :
    (logged_in secret now cookies).status = 200 ∧
    ((cookies.token = none ∨
        ∃ t, cookies.token = some t ∧ ∀ p, Jwt.verify t secret now ≠ .ok p) →
      (logged_in secret now cookies).loggedIn = false) ∧
    (∀ t p, cookies.token = some t → Jwt.verify t secret now = .ok p →
      (logged_in secret now cookies).loggedIn = true ∧
      (logged_in secret now cookies).user = p.user) := by
  rcases cookies with ⟨_ | t⟩
  · exact ⟨rfl, fun _ => rfl, fun t p h => by cases h⟩
  · rcases hv : Jwt.verify t secret now with e | p
    · refine ⟨by simp [logged_in, hv], fun _ => by simp [logged_in, hv], ?_⟩
      rintro t1 q h1 h2
      injection h1 with h1
      subst h1
      rw [hv] at h2
      exact Except.noConfusion h2
    · refine ⟨by simp [logged_in, hv], ?_, ?_⟩
      · rintro (h | ⟨t1, h1, h2⟩)
        · exact Option.noConfusion h
        · injection h1 with h1
          subst h1
          exact absurd hv (h2 p)
      · rintro t1 q h1 h2
        injection h1 with h1
        subst h1
        rw [hv] at h2
        injection h2 with h2
        subst h2
        exact ⟨by simp [logged_in, hv], by simp [logged_in, hv]⟩

/-- Witness for C4 at two concrete requests: no cookie, and an expired
cookie (issued at 0, polled at tokenExpiration). -/
theorem C4_witness :
    ((logged_in "s" 0 ⟨none⟩).status = 200 ∧
      (logged_in "s" 0 ⟨none⟩).loggedIn = false) ∧
    ((logged_in "s" tokenExpiration
        ⟨some (Jwt.sign ⟨some ⟨"n", "e", "p"⟩⟩ "s" tokenExpiration 0)⟩).status = 200 ∧
      (logged_in "s" tokenExpiration
        ⟨some (Jwt.sign ⟨some ⟨"n", "e", "p"⟩⟩ "s" tokenExpiration 0)⟩).loggedIn = false) :=
  ⟨⟨(C4_logged_in_always_200 "s" 0 ⟨none⟩).1,
    (C4_logged_in_always_200 "s" 0 ⟨none⟩).2.1 (Or.inl rfl)⟩,
   ⟨(C4_logged_in_always_200 "s" tokenExpiration
      ⟨some (Jwt.sign ⟨some ⟨"n", "e", "p"⟩⟩ "s" tokenExpiration 0)⟩).1,
    (C4_logged_in_always_200 "s" tokenExpiration
      ⟨some (Jwt.sign ⟨some ⟨"n", "e", "p"⟩⟩ "s" tokenExpiration 0)⟩).2.1
      (Or.inr ⟨Jwt.sign ⟨some ⟨"n", "e", "p"⟩⟩ "s" tokenExpiration 0, rfl,
        fun p h => by
          rw [show Jwt.verify (Jwt.sign ⟨some ⟨"n", "e", "p"⟩⟩ "s" tokenExpiration 0)
                "s" tokenExpiration = Except.error VerifyError.expired by decide] at h
          exact Except.noConfusion h⟩)⟩⟩

/-- Claim C5 as stated is false: when the refresh happens within the same
second as the issuance of the credential it replaces, the fresh credential
has the same expiration, not a strictly later one. Concretely: a credential
issued at time 0 expires at 36000; refreshing it at time 0 succeeds and
overwrites the cookie with a credential that also expires at 36000. -/
theorem C5_counterexample :
    (logged_in "s" 0
      ⟨some (Jwt.sign ⟨some ⟨"n", "e", "p"⟩⟩ "s" tokenExpiration 0)⟩).loggedIn = true ∧
    (logged_in "s" 0
      ⟨some (Jwt.sign ⟨some ⟨"n", "e", "p"⟩⟩ "s" tokenExpiration 0)⟩).setCookie =
      some (Jwt.sign ⟨some ⟨"n", "e", "p"⟩⟩ "s" tokenExpiration 0) ∧
    ¬ ((Jwt.sign ⟨some ⟨"n", "e", "p"⟩⟩ "s" tokenExpiration 0).exp <
        (Jwt.sign ⟨some ⟨"n", "e", "p"⟩⟩ "s" tokenExpiration 0).exp) := by
  refine ⟨by decide, by decide, by decide⟩

/-- Claim C5, amended: on a successful /auth/logged_in poll of a credential
issued at time t0 and refreshed at time now (t0 ≤ now < t0 + 36000), the
handler overwrites the cookie with a fresh credential for the same profile
carrying a full new 36000-second window (expiring at now + 36000); the new
expiration is never earlier than the replaced one, and is strictly later
exactly when at least one full second has elapsed since issuance (a refresh
within the issuance second reproduces the same expiration). -/
theorem C5_sliding_refresh (P : Option UserProfile) (secret : String) (t0 now : Nat)
    (hmono : t0 ≤ now) (hlive : now < t0 + tokenExpiration) :
    (logged_in secret now ⟨some (Jwt.sign ⟨P⟩ secret tokenExpiration t0)⟩).loggedIn = true ∧
    (logged_in secret now ⟨some (Jwt.sign ⟨P⟩ secret tokenExpiration t0)⟩).user = P ∧
    (logged_in secret now ⟨some (Jwt.sign ⟨P⟩ secret tokenExpiration t0)⟩).setCookie =
      some (Jwt.sign ⟨P⟩ secret tokenExpiration now) ∧
    (Jwt.sign ⟨P⟩ secret tokenExpiration now).exp = now + tokenExpiration ∧
    (Jwt.sign ⟨P⟩ secret tokenExpiration t0).exp ≤
      (Jwt.sign ⟨P⟩ secret tokenExpiration now).exp ∧
    (t0 < now →
      (Jwt.sign ⟨P⟩ secret tokenExpiration t0).exp <
        (Jwt.sign ⟨P⟩ secret tokenExpiration now).exp) := by
  have hv : Jwt.verify (Jwt.sign ⟨P⟩ secret tokenExpiration t0) secret now =
      .ok ⟨P⟩ := by
    simp [Jwt.sign, Jwt.verify, hlive]
  refine ⟨by simp [logged_in, hv], by simp [logged_in, hv], by simp [logged_in, hv], rfl, ?_, ?_⟩
  · simp [Jwt.sign]
    omega
  · intro h
    simp [Jwt.sign]
    omega

/-- Witness for C5 (amended): a credential issued at 0 and refreshed at 1
is replaced by one expiring at 36001, strictly later than 36000. -/
theorem C5_witness :
    (0 : Nat) ≤ 1 ∧ (1 : Nat) < 0 + tokenExpiration ∧
    ((logged_in "s" 1
        ⟨some (Jwt.sign ⟨some ⟨"n", "e", "p"⟩⟩ "s" tokenExpiration 0)⟩).setCookie =
      some (Jwt.sign ⟨some ⟨"n", "e", "p"⟩⟩ "s" tokenExpiration 1) ∧
     (Jwt.sign ⟨some ⟨"n", "e", "p"⟩⟩ "s" tokenExpiration 0).exp <
       (Jwt.sign ⟨some ⟨"n", "e", "p"⟩⟩ "s" tokenExpiration 1).exp) :=
  ⟨by decide, by decide,
   (C5_sliding_refresh (some ⟨"n", "e", "p"⟩) "s" 0 1 (by decide) (by decide)).2.2.1,
   (C5_sliding_refresh (some ⟨"n", "e", "p"⟩) "s" 0 1 (by decide) (by decide)).2.2.2.2.2
     (by decide)⟩

/-- Claim C6: /auth/token answers 400 without setting a cookie when the
code query parameter is absent or empty, 500 when the outbound exchange
fails (network or non-2xx), 400 without setting a cookie when the exchange
succeeds but carries no id_token, and only on a successful exchange with an
id_token does it set the session cookie and return the user. -/
theorem C6_auth_token_cases (secret : String) (now : Nat) (provider : ExchangeOutcome) :
    (∀ code, code = none ∨ code = some "" →
      auth_token secret now code provider = ⟨400, none, none⟩) ∧
    (∀ c, c ≠ "" → provider = .failure →
      auth_token secret now (some c) provider = ⟨500, none, none⟩) ∧
    (∀ c, c ≠ "" → provider = .success none →
      auth_token secret now (some c) provider = ⟨400, none, none⟩) ∧
    (∀ c claims, c ≠ "" → provider = .success (some claims) →
      auth_token secret now (some c) provider =
        ⟨200,
         some (Jwt.sign ⟨some ⟨claims.name, claims.email, claims.picture⟩⟩
           secret tokenExpiration now),
         some ⟨claims.name, claims.email, claims.picture⟩⟩) := by
  refine ⟨?_, ?_, ?_, ?_⟩
  · rintro code (rfl | rfl)
    · rfl
    · rfl
  · rintro c hc rfl
    simp [auth_token, hc]
  · rintro c hc rfl
    simp [auth_token, hc]
  · rintro c claims hc rfl
    simp [auth_token, hc]

/-- Witness for C6 at concrete inputs: an empty code yields 400 with no
cookie, and a failed exchange with a nonempty code yields 500. -/
theorem C6_witness :
    auth_token "s" 0 (some "") ExchangeOutcome.failure = ⟨400, none, none⟩ ∧
    auth_token "s" 0 (some "c") ExchangeOutcome.failure = ⟨500, none, none⟩ :=
  ⟨(C6_auth_token_cases "s" 0 ExchangeOutcome.failure).1 (some "") (Or.inr rfl),
   (C6_auth_token_cases "s" 0 ExchangeOutcome.failure).2.1 "c" (by decide) rfl⟩

/-- Claim C7: the auth middleware is read-only with respect to the session:
it never sets or clears the session cookie on any path, and two runs over
the same cookie at any two instants before the credential expires (with a
signature valid for the configured secret) reach the same admission
decision. -/
theorem C7_auth_frame (secret : String) (now1 now2 : Nat) (cookies : Cookies) :
    ((auth secret now1 cookies).setCookie = none ∧
      (auth secret now1 cookies).clearCookie = false) ∧
    (∀ t, cookies.token = some t → t.sig = ⟨t.payload, t.exp, secret⟩ →
      now1 < t.exp → now2 < t.exp →
      (auth secret now1 cookies).decision = (auth secret now2 cookies).decision) := by
  constructor
  · rcases cookies with ⟨_ | t⟩
    · exact ⟨rfl, rfl⟩
    · rcases hv : Jwt.verify t secret now1 with e | p
      · exact ⟨by simp [auth, hv], by simp [auth, hv]⟩
      · exact ⟨by simp [auth, hv], by simp [auth, hv]⟩
  · rcases cookies with ⟨_ | t⟩
    · rintro t1 h1
      exact Option.noConfusion h1
    · rintro t1 h1 hsig h1lt h2lt
      injection h1 with h1
      subst h1
      have hv1 : Jwt.verify t secret now1 = .ok t.payload := by
        simp [Jwt.verify, hsig, h1lt]
      have hv2 : Jwt.verify t secret now2 = .ok t.payload := by
        simp [Jwt.verify, hsig, h2lt]
      simp [auth, hv1, hv2]

/-- Witness for C7: a freshly issued cookie checked at times 1 and 2 yields
the same decision, and the middleware run at time 1 performs no cookie
mutation. -/
theorem C7_witness :
    ((auth "s" 1 ⟨some (Jwt.sign ⟨some ⟨"n", "e", "p"⟩⟩ "s" tokenExpiration 0)⟩).setCookie =
        none ∧
      (auth "s" 1 ⟨some (Jwt.sign ⟨some ⟨"n", "e", "p"⟩⟩ "s" tokenExpiration 0)⟩).clearCookie =
        false) ∧
    (auth "s" 1 ⟨some (Jwt.sign ⟨some ⟨"n", "e", "p"⟩⟩ "s" tokenExpiration 0)⟩).decision =
      (auth "s" 2 ⟨some (Jwt.sign ⟨some ⟨"n", "e", "p"⟩⟩ "s" tokenExpiration 0)⟩).decision :=
  ⟨(C7_auth_frame "s" 1 2 ⟨some (Jwt.sign ⟨some ⟨"n", "e", "p"⟩⟩ "s" tokenExpiration 0)⟩).1,
   (C7_auth_frame "s" 1 2 ⟨some (Jwt.sign ⟨some ⟨"n", "e", "p"⟩⟩ "s" tokenExpiration 0)⟩).2
     (Jwt.sign ⟨some ⟨"n", "e", "p"⟩⟩ "s" tokenExpiration 0) rfl rfl
     (by decide) (by decide)⟩

/-- Claim C8: for an accepted request, /user/posts answers 200 with exactly
the first min(5, length) entries of the downstream list, in order (a prefix
of the list), and answers 500 on a downstream failure. -/
theorem C8_user_posts_truncates {α : Type} (secret : String) (now : Nat)
    (cookies : Cookies) (data : List α) (u : Option UserProfile)
    (hacc : (auth secret now cookies).decision = .accept u) :
    user_posts secret now cookies (.success data) =
      (⟨200, some (data.take 5)⟩ : PostsResult α) ∧
    (data.take 5).length = min 5 data.length ∧
    data.take 5 ++ data.drop 5 = data ∧
    user_posts secret now cookies (.failure : UpstreamOutcome α) =
      (⟨500, none⟩ : PostsResult α) := by
  refine ⟨?_, ?_, ?_, ?_⟩
  · simp [user_posts, hacc]
  · exact List.length_take 5 data
  · exact List.take_append_drop 5 data
  · simp [user_posts, hacc]

/-- Witness for C8: with a valid cookie and an upstream list of 7 entries,
the endpoint answers 200 with the first 5 entries. -/
theorem C8_witness :
    (auth "s" 0 ⟨some (Jwt.sign ⟨some ⟨"n", "e", "p"⟩⟩ "s" tokenExpiration 0)⟩).decision =
      .accept (some ⟨"n", "e", "p"⟩) ∧
    user_posts "s" 0 ⟨some (Jwt.sign ⟨some ⟨"n", "e", "p"⟩⟩ "s" tokenExpiration 0)⟩
      (.success [0, 1, 2, 3, 4, 5, 6]) =
      (⟨200, some [0, 1, 2, 3, 4]⟩ : PostsResult Nat) :=
  ⟨by decide,
   (C8_user_posts_truncates "s" 0
      ⟨some (Jwt.sign ⟨some ⟨"n", "e", "p"⟩⟩ "s" tokenExpiration 0)⟩
      [0, 1, 2, 3, 4, 5, 6] (some ⟨"n", "e", "p"⟩) (by decide)).1⟩

/-- Claim C9: a token signed with the configured secret and unexpired, but
whose payload contains no user field, is still accepted by the auth
middleware, which runs the protected handler with an undefined identity
(`none`) attached: admission depends only on signature validity and
expiration. -/
theorem C9_accepts_userless_payload (secret : String) (now : Nat) (t : Token)
    (hsig : t.sig = ⟨t.payload, t.exp, secret⟩) (huser : t.payload.user = none)
    (hexp : now < t.exp) :
    (auth secret now ⟨some t⟩).decision = .accept none := by
  have hv : Jwt.verify t secret now = .ok t.payload := by
    simp [Jwt.verify, hsig, hexp]
  simp [auth, hv, huser]

/-- Witness for C9: a token signed with secret "s" over an empty payload,
expiring at 10, checked at time 0, is accepted with no user. -/
theorem C9_witness :
    (auth "s" 0 ⟨some ⟨⟨none⟩, 10, ⟨⟨none⟩, 10, "s"⟩⟩⟩).decision =
      .accept none :=
  C9_accepts_userless_payload "s" 0 ⟨⟨none⟩, 10, ⟨⟨none⟩, 10, "s"⟩⟩ rfl rfl
    (by decide)

/-- Claim C10: whenever /auth/logged_in reports `{loggedIn: false}` (cookie
absent or verification failed), the response neither overwrites nor clears
the cookie: the failure path performs no cookie mutation. -/
theorem C10_failure_leaves_cookie (secret : String) (now : Nat) (cookies : Cookies)
    (h : (logged_in secret now cookies).loggedIn = false) :
    (logged_in secret now cookies).setCookie = none ∧
    (logged_in secret now cookies).clearCookie = false := by
  rcases cookies with ⟨_ | t⟩
  · exact ⟨rfl, rfl⟩
  · rcases hv : Jwt.verify t secret now with e | p
    · exact ⟨by simp [logged_in, hv], by simp [logged_in, hv]⟩
    · exact absurd h (by simp [logged_in, hv])

/-- Witness for C10: an expired cookie (issued at 0, polled at
tokenExpiration) leaves the response without any cookie mutation. -/
theorem C10_witness :
    (logged_in "s" tokenExpiration
        ⟨some (Jwt.sign ⟨some ⟨"n", "e", "p"⟩⟩ "s" tokenExpiration 0)⟩).loggedIn = false ∧
    (logged_in "s" tokenExpiration
        ⟨some (Jwt.sign ⟨some ⟨"n", "e", "p"⟩⟩ "s" tokenExpiration 0)⟩).setCookie = none ∧
    (logged_in "s" tokenExpiration
        ⟨some (Jwt.sign ⟨some ⟨"n", "e", "p"⟩⟩ "s" tokenExpiration 0)⟩).clearCookie = false :=
  ⟨by decide,
   (C10_failure_leaves_cookie "s" tokenExpiration
      ⟨some (Jwt.sign ⟨some ⟨"n", "e", "p"⟩⟩ "s" tokenExpiration 0)⟩ (by decide)).1,
   (C10_failure_leaves_cookie "s" tokenExpiration
      ⟨some (Jwt.sign ⟨some ⟨"n", "e", "p"⟩⟩ "s" tokenExpiration 0)⟩ (by decide)).2⟩
